import Mathlib

/-!
Verification of the Todo CRUD request handlers (`app/routes.py`) of the
Todo-list service, as a shallow embedding in Lean 4.

JSON values are modelled by `JVal`; request payloads are JSON objects
(`Jobj`, association lists).  The relational store is modelled by `Store`:
a list of rows plus a surrogate-key counter and a creation clock (the store
assigns strictly increasing ids and creation timestamps).  Store failures
(`SQLAlchemyError` and other exceptions) are injected explicitly as
parameters of the handlers, mirroring where the Python code can raise;
a handler that catches the exception is a total function returning a
response, while the one handler with no `try`/`except` (`get_todo`) is
embedded in the `Except` monad so that an error propagates out.
-/

namespace TodoApp

/-- A JSON value, as produced by parsing a request body or by `jsonify`. -/
inductive JVal where
  | null : JVal
  | b : Bool → JVal
  | n : Nat → JVal
  | s : String → JVal
  | arr : List JVal → JVal
  | obj : List (String × JVal) → JVal

/-- A JSON object: the association list of its fields. -/
abbrev Jobj := List (String × JVal)

/-- Python `d.get(k)` on a dict: the value of the first binding of `k`, if any. -/
def jlookup (d : Jobj) (k : String) : Option JVal :=
  (d.find? (fun p => p.1 == k)).map (fun p => p.2)

/-- Field lookup on a JSON value that is an object; `none` otherwise. -/
def jfield (v : JVal) (k : String) : Option JVal :=
  match v with
  | .obj d => jlookup d k
  | _ => none

/-- Python truthiness of a JSON value (`bool(v)`). -/
def truthy : JVal → Bool
  | .null => false
  | .b v => v
  | .n v => v != 0
  | .s v => !v.isEmpty
  | .arr l => !l.isEmpty
  | .obj l => !l.isEmpty

/-- Python `not d.get(k)`: the key is absent, or its value is falsy. -/
def pyFalsy : Option JVal → Bool
  | none => true
  | some v => !truthy v

/-- Modelled from the spec: the `Todo` row of `app/models.py`, which is not
part of the handler sources.  Per the spec data model: `id` is the surrogate
primary key assigned by the store on insert, `title`/`description`/`completed`
hold the values the handlers assign (JSON values, since the handlers assign
payload fields directly), `created_at` is set once at insert, `updated_at`
at insert as well.  Timestamps are modelled as naturals from the store clock. -/
structure Todo where
  id : Nat
  title : JVal
  description : JVal
  completed : JVal
  created_at : Nat
  updated_at : Nat

/-- Modelled from the spec: `Todo.to_dict` of `app/models.py` (not in the
handler sources) serializes a row as
`\x7bid, title, description, completed, created_at, updated_at\x7d`. -/
def Todo.to_dict (t : Todo) : JVal :=
  .obj [("id", .n t.id), ("title", t.title), ("description", t.description),
        ("completed", t.completed), ("created_at", .n t.created_at),
        ("updated_at", .n t.updated_at)]

/-- The relational store: the stored rows, the next surrogate id, and a
clock from which strictly increasing creation timestamps are drawn. -/
structure Store where
  todos : List Todo
  nextId : Nat
  clock : Nat

/-- Store well-formedness: every stored id is below the id counter, every
stored creation timestamp is below the clock, and ids are distinct. -/
def Store.wf (st : Store) : Prop :=
  (∀ t ∈ st.todos, t.id < st.nextId ∧ t.created_at < st.clock) ∧
  (st.todos.map Todo.id).Nodup

instance (st : Store) : Decidable st.wf := by
  unfold Store.wf; infer_instance

/-- The primary-key test used by lookup, update and delete. -/
def idMatch (i : Nat) (t : Todo) : Bool :=
  t.id == i

/-- `Todo.query.get(todo_id)` / `db.session.get(Todo, todo_id)`:
the row with the given primary key, if any. -/
def queryGet (st : Store) (todo_id : Nat) : Option Todo :=
  st.todos.find? (idMatch todo_id)

/-- A JSON response: body and HTTP status code. -/
abbrev Resp := JVal × Nat

/-- The failure envelope produced by `jsonify` on every handled error path. -/
def errBody (msg : String) : JVal :=
  .obj [("success", .b false), ("error", .s msg)]

/-- `GET /health` (`health_check` in `routes.py`): `dbOk` tells whether the
trivial `SELECT 1` succeeds. -/
def health_check (dbOk : Bool) : Resp :=
  if dbOk then
    (.obj [("status", .s "healthy"), ("database", .s "connected")], 200)
  else
    (.obj [("status", .s "unhealthy"), ("database", .s "disconnected"),
           ("error", .s "Database connection failed")], 503)

/-- The ordering `Todo.created_at.desc()`: most recently created first. -/
def createdDesc (a b : Todo) : Prop :=
  b.created_at ≤ a.created_at

instance : DecidableRel createdDesc := fun a b => Nat.decLe b.created_at a.created_at

instance : IsTotal Todo createdDesc :=
  ⟨fun a b => Or.symm (Nat.le_total a.created_at b.created_at)⟩

instance : IsTrans Todo createdDesc :=
  ⟨fun _ _ _ h h' => Nat.le_trans h' h⟩

/-- `Todo.query.order_by(Todo.created_at.desc()).all()`. -/
def orderByCreatedAtDesc (l : List Todo) : List Todo :=
  l.insertionSort createdDesc

/-- `GET /todos` (`get_todos`): `queryOk` tells whether the query raises
`SQLAlchemyError`. -/
def get_todos (queryOk : Bool) (st : Store) : Resp :=
  if queryOk then
    let todos := orderByCreatedAtDesc st.todos
    (.obj [("success", .b true), ("data", .arr (todos.map Todo.to_dict)),
           ("count", .n todos.length)], 200)
  else
    (errBody "Database error occurred", 500)

/-- `GET /todos/(id)` (`get_todo`): the handler has no `try`/`except`, so it
is embedded over the outcome of the lookup query: an error outcome is bound
through and propagates out of the handler. -/
def get_todo (q : Except String (Option Todo)) : Except String Resp :=
  q.bind (fun found =>
    match found with
    | none => .ok (errBody "Todo not found", 404)
    | some todo => .ok (.obj [("success", .b true), ("data", todo.to_dict)], 200))

/-- The row built by `Todo(title=data['title'], description=data.get('description', ''))`
with the store-assigned id and timestamps.  `completed` defaults to false
(modelled from the spec data model, the column default living in `app/models.py`). -/
def newTodo (st : Store) (d : Jobj) : Todo :=
  { id := st.nextId
    title := (jlookup d "title").getD .null
    description := (jlookup d "description").getD (.s "")
    completed := .b false
    created_at := st.clock
    updated_at := st.clock }

/-- `POST /todos` (`create_todo`).  `data` is the parsed request body:
`none` models an absent, null or malformed payload (no JSON object was
obtained from `request.get_json()`).  `commitFault` injects a
`SQLAlchemyError` from `db.session.commit()`. -/
def create_todo (data : Option Jobj) (commitFault : Option String) (st : Store) :
    Resp × Store :=
  match data with
  | none => ((errBody "Title is required", 400), st)
  | some d =>
    if d.isEmpty || pyFalsy (jlookup d "title") then
      ((errBody "Title is required", 400), st)
    else
      match commitFault with
      | some _ => ((errBody "Failed to create todo", 500), st)
      | none =>
        let todo := newTodo st d
        ((.obj [("success", .b true), ("data", todo.to_dict),
                ("message", .s "Todo created successfully")], 201),
         { todos := st.todos ++ [todo], nextId := st.nextId + 1,
           clock := st.clock + 1 })

/-- The exception injected into `update_todo`: `commitFail` is a
`SQLAlchemyError` raised by the inner `db.session.commit()`; `sqlFault` a
`SQLAlchemyError` raised elsewhere inside the outer `try`; `otherFault` any
other exception raised inside the outer `try`. -/
inductive UpdateFault where
  | ok : UpdateFault
  | commitFail : String → UpdateFault
  | sqlFault : String → UpdateFault
  | otherFault : String → UpdateFault

/-- The three merge assignments of `update_todo`:
`todo.field = data.get('field', todo.field)` for title, description, completed. -/
def mergeTodo (t : Todo) (d : Jobj) : Todo :=
  { t with
    title := (jlookup d "title").getD t.title
    description := (jlookup d "description").getD t.description
    completed := (jlookup d "completed").getD t.completed }

/-- `PUT /todos/(id)` (`update_todo`).  `body` is the parsed request body
(`none` models an absent or null body; `request.get_json() or \x7b\x7d` turns
it into the empty object).  On any injected fault the session is rolled
back, so the store is returned unchanged. -/
def update_todo (todo_id : Nat) (body : Option Jobj) (fault : UpdateFault)
    (st : Store) : Resp × Store :=
  match fault with
  | .sqlFault e => ((errBody ("Database error: " ++ e), 500), st)
  | .otherFault e => ((errBody ("Unexpected error: " ++ e), 500), st)
  | _ =>
    match queryGet st todo_id with
    | none => ((errBody "Todo not found", 404), st)
    | some todo =>
      let data := body.getD []
      let merged := mergeTodo todo data
      match fault with
      | .commitFail e =>
        ((errBody ("Database commit failed: " ++ e), 500), st)
      | _ =>
        ((.obj [("success", .b true), ("data", merged.to_dict),
                ("message", .s "Todo updated successfully")], 200),
         { st with
           todos := st.todos.map (fun t =>
             if idMatch todo_id t then mergeTodo t data else t) })

/-- `DELETE /todos/(id)` (`delete_todo`).  `fault` injects a
`SQLAlchemyError` from `db.session.delete`/`db.session.commit`; the
`except` branch rolls back, so the store is returned unchanged. -/
def delete_todo (todo_id : Nat) (fault : Option String) (st : Store) :
    Resp × Store :=
  match queryGet st todo_id with
  | none => ((errBody "Todo not found", 404), st)
  | some _ =>
    match fault with
    | some e => ((errBody ("Failed to delete todo: " ++ e), 500), st)
    | none =>
      ((.obj [("success", .b true), ("message", .s "Todo deleted successfully")], 200),
       { st with todos := st.todos.filter (fun t => !(idMatch todo_id t)) })

/-- A response body that carries `success:false` and a nonempty `error` string. -/
def failureEnvelope (v : JVal) : Bool :=
  (match jfield v "success" with
   | some (.b false) => true
   | _ => false)
  &&
  (match jfield v "error" with
   | some (.s m) => !m.isEmpty
   | _ => false)

theorem mergeTodo_nil (t : Todo) : mergeTodo t [] = t :=
  rfl

theorem mergeTodo_id (t : Todo) (d : Jobj) : (mergeTodo t d).id = t.id :=
  rfl

theorem find?_replace (l : List Todo) (i : Nat) (f : Todo → Todo)
    (hf : ∀ t, (f t).id = t.id) (t0 : Todo)
    (h : l.find? (idMatch i) = some t0) :
    (l.map (fun t => if idMatch i t then f t else t)).find? (idMatch i)
      = some (f t0) := by
  induction l with
  | nil => simp [List.find?] at h
  | cons a l ih =>
    by_cases ha : idMatch i a = true
    · rw [List.find?_cons_of_pos l ha] at h
      injection h with h0
      subst h0
      rw [List.map_cons, if_pos ha]
      exact List.find?_cons_of_pos _ (by simpa [idMatch, hf] using ha)
    · rw [List.find?_cons_of_neg l ha] at h
      rw [List.map_cons, if_neg ha, List.find?_cons_of_neg _ ha]
      exact ih h

theorem find?_filter_ne (l : List Todo) (i : Nat) :
    (l.filter (fun t => !(idMatch i t))).find? (idMatch i) = none := by
  rw [List.find?_eq_none]
  intro x hx
  have hmem := List.mem_filter.mp hx
  simpa using hmem.2

/-- C8: the get-by-id handler distinguishes only found and not-found; a store
error in the lookup outcome is bound through `get_todo` unchanged, so it
propagates out of the handler; not-found yields 404 with `success:false`,
and a found row yields 200 with the full record. -/
theorem get_todo_only_not_found (e : String) (t : Todo) :
    get_todo (.error e) = .error e ∧
    get_todo (.ok none) = .ok (errBody "Todo not found", 404) ∧
    get_todo (.ok (some t)) =
      .ok (.obj [("success", .b true), ("data", t.to_dict)], 200) :=
  ⟨rfl, rfl, rfl⟩

/-- C5: the list handler returns all stored Todos ordered by `created_at`
descending (the returned list is a permutation of the store, sorted by
`createdDesc`) with `count` equal to the number of returned items, and on a
store failure returns 500 with `success:false` and a generic error and no
data. -/
theorem get_todos_ordered_count (st : Store) :
    get_todos true st =
      (.obj [("success", .b true),
             ("data", .arr ((orderByCreatedAtDesc st.todos).map Todo.to_dict)),
             ("count", .n (orderByCreatedAtDesc st.todos).length)], 200) ∧
    (orderByCreatedAtDesc st.todos).Perm st.todos ∧
    List.Sorted createdDesc (orderByCreatedAtDesc st.todos) ∧
    (orderByCreatedAtDesc st.todos).length = st.todos.length ∧
    get_todos false st = (errBody "Database error occurred", 500) :=
  ⟨rfl, List.perm_insertionSort createdDesc st.todos,
   List.sorted_insertionSort createdDesc st.todos,
   (List.perm_insertionSort createdDesc st.todos).length_eq,
   rfl⟩

/-- C2: a create request whose payload is absent/malformed (`none`) or whose
object is empty or lacks a truthy title is rejected with 400 and the
`success:false` envelope; the store is returned unchanged whatever fault the
store would have produced (no store access), so the Todo count is unchanged. -/
theorem create_todo_validation (data : Option Jobj) (f : Option String) (st : Store)
    (hbad : data = none ∨
      ∃ d, data = some d ∧ (d.isEmpty || pyFalsy (jlookup d "title")) = true) :
    create_todo data f st = ((errBody "Title is required", 400), st) ∧
    (create_todo data f st).2.todos.length = st.todos.length := by
  rcases hbad with h | ⟨d, hd, hcond⟩
  · subst h; exact ⟨rfl, rfl⟩
  · subst hd
    refine ⟨?_, ?_⟩ <;> simp [create_todo, hcond]

/-- C2 witness: the empty-title payload against a singleton store. -/
theorem create_todo_validation_witness :
    create_todo (some [("title", .s "")]) (some "boom")
        ⟨[⟨1, .s "a", .s "", .b false, 0, 0⟩], 2, 1⟩ =
      ((errBody "Title is required", 400),
       ⟨[⟨1, .s "a", .s "", .b false, 0, 0⟩], 2, 1⟩) :=
  (create_todo_validation (some [("title", .s "")]) (some "boom")
    ⟨[⟨1, .s "a", .s "", .b false, 0, 0⟩], 2, 1⟩
    (Or.inr ⟨_, rfl, by decide⟩)).1

/-- C1: for an existing id, update applies merge semantics: the response is
200 with the merged record, the stored row becomes the merged record, each
field present in the payload overwrites the stored field, each omitted field
keeps its prior value, and in particular the payload holding only
`completed:true` changes exactly the `completed` field. -/
theorem update_todo_merge_semantics (st : Store) (todo_id : Nat) (t0 : Todo)
    (d : Jobj) (hfound : queryGet st todo_id = some t0) :
    (update_todo todo_id (some d) .ok st).1 =
      (.obj [("success", .b true), ("data", (mergeTodo t0 d).to_dict),
             ("message", .s "Todo updated successfully")], 200) ∧
    queryGet (update_todo todo_id (some d) .ok st).2 todo_id =
      some (mergeTodo t0 d) ∧
    (∀ v, jlookup d "title" = some v → (mergeTodo t0 d).title = v) ∧
    (jlookup d "title" = none → (mergeTodo t0 d).title = t0.title) ∧
    (∀ v, jlookup d "description" = some v → (mergeTodo t0 d).description = v) ∧
    (jlookup d "description" = none →
      (mergeTodo t0 d).description = t0.description) ∧
    (∀ v, jlookup d "completed" = some v → (mergeTodo t0 d).completed = v) ∧
    (jlookup d "completed" = none → (mergeTodo t0 d).completed = t0.completed) ∧
    mergeTodo t0 [("completed", .b true)] = { t0 with completed := .b true } := by
  refine ⟨?_, ?_, ?_, ?_, ?_, ?_, ?_, ?_, rfl⟩
  · simp [update_todo, hfound]
  · have hrep := find?_replace st.todos todo_id (fun t => mergeTodo t d)
      (fun t => rfl) t0 hfound
    simp only [update_todo, hfound]
    exact hrep
  · intro v hv; simp [mergeTodo, hv]
  · intro hn; simp [mergeTodo, hn]
  · intro v hv; simp [mergeTodo, hv]
  · intro hn; simp [mergeTodo, hn]
  · intro v hv; simp [mergeTodo, hv]
  · intro hn; simp [mergeTodo, hn]

/-- C1 witness: updating a concrete stored row with only `completed:true`. -/
theorem update_todo_merge_semantics_witness :
    (update_todo 1 (some [("completed", .b true)]) .ok
        ⟨[⟨1, .s "a", .s "b", .b false, 0, 0⟩], 2, 1⟩).1 =
      (.obj [("success", .b true),
             ("data", (mergeTodo ⟨1, .s "a", .s "b", .b false, 0, 0⟩
                 [("completed", .b true)]).to_dict),
             ("message", .s "Todo updated successfully")], 200) :=
  (update_todo_merge_semantics ⟨[⟨1, .s "a", .s "b", .b false, 0, 0⟩], 2, 1⟩ 1
    ⟨1, .s "a", .s "b", .b false, 0, 0⟩ [("completed", .b true)] rfl).1

/-- C9: for an existing id, an update payload with `title` mapped to the
empty string is accepted: the response is 200 with `success:true`, the
stored title becomes the empty string (no title validation on update), and
the other fields are unchanged. -/
theorem update_todo_accepts_empty_title (st : Store) (todo_id : Nat) (t0 : Todo)
    (hfound : queryGet st todo_id = some t0) :
    (update_todo todo_id (some [("title", .s "")]) .ok st).1 =
      (.obj [("success", .b true),
             ("data", (mergeTodo t0 [("title", .s "")]).to_dict),
             ("message", .s "Todo updated successfully")], 200) ∧
    (mergeTodo t0 [("title", .s "")]).title = .s "" ∧
    (mergeTodo t0 [("title", .s "")]).description = t0.description ∧
    (mergeTodo t0 [("title", .s "")]).completed = t0.completed ∧
    queryGet (update_todo todo_id (some [("title", .s "")]) .ok st).2 todo_id =
      some (mergeTodo t0 [("title", .s "")]) := by
  refine ⟨?_, rfl, rfl, rfl, ?_⟩
  · simp [update_todo, hfound]
  · have hrep := find?_replace st.todos todo_id
      (fun t => mergeTodo t [("title", .s "")]) (fun t => rfl) t0 hfound
    simp only [update_todo, hfound]
    exact hrep

/-- C9 witness: the empty-title update on a concrete stored row. -/
theorem update_todo_accepts_empty_title_witness :
    (mergeTodo ⟨1, .s "a", .s "b", .b false, 0, 0⟩ [("title", .s "")]).title =
      .s "" :=
  (update_todo_accepts_empty_title ⟨[⟨1, .s "a", .s "b", .b false, 0, 0⟩], 2, 1⟩
    1 ⟨1, .s "a", .s "b", .b false, 0, 0⟩ rfl).2.1

/-- C10: for an existing id, an update whose body is absent or null
(`none`) or the empty object is an identity operation: status 200 with
`success:true`, the response data is the unchanged record, and the store is
returned unchanged. -/
theorem update_todo_empty_body_identity (st : Store) (todo_id : Nat) (t0 : Todo)
    (hfound : queryGet st todo_id = some t0) :
    update_todo todo_id none .ok st =
      ((.obj [("success", .b true), ("data", t0.to_dict),
              ("message", .s "Todo updated successfully")], 200), st) ∧
    update_todo todo_id (some []) .ok st =
      ((.obj [("success", .b true), ("data", t0.to_dict),
              ("message", .s "Todo updated successfully")], 200), st) := by
  have hmap : st.todos.map
      (fun t => if idMatch todo_id t then mergeTodo t [] else t) = st.todos := by
    refine List.map_id'' ?_ st.todos
    intro t
    rw [mergeTodo_nil]
    exact ite_self t
  constructor <;> simp [update_todo, hfound, hmap, mergeTodo_nil]

/-- C10 witness: the absent-body update on a concrete stored row. -/
theorem update_todo_empty_body_identity_witness :
    update_todo 1 none .ok ⟨[⟨1, .s "a", .s "b", .b false, 0, 0⟩], 2, 1⟩ =
      ((.obj [("success", .b true),
              ("data", Todo.to_dict ⟨1, .s "a", .s "b", .b false, 0, 0⟩),
              ("message", .s "Todo updated successfully")], 200),
       ⟨[⟨1, .s "a", .s "b", .b false, 0, 0⟩], 2, 1⟩) :=
  (update_todo_empty_body_identity ⟨[⟨1, .s "a", .s "b", .b false, 0, 0⟩], 2, 1⟩
    1 ⟨1, .s "a", .s "b", .b false, 0, 0⟩ rfl).1

/-- C4: for an existing id, a commit failure on update rolls the store back
and yields 500 with an error string carrying the underlying detail; a
`SQLAlchemyError` or any other unexpected exception inside the handler is
likewise caught (the handler still returns a response), rolled back, and
reported as a 500 server error with the detail. -/
theorem update_todo_failure_handling (st : Store) (todo_id : Nat) (t0 : Todo)
    (body : Option Jobj) (e : String)
    (hfound : queryGet st todo_id = some t0) :
    update_todo todo_id body (.commitFail e) st =
      ((errBody ("Database commit failed: " ++ e), 500), st) ∧
    update_todo todo_id body (.sqlFault e) st =
      ((errBody ("Database error: " ++ e), 500), st) ∧
    update_todo todo_id body (.otherFault e) st =
      ((errBody ("Unexpected error: " ++ e), 500), st) := by
  refine ⟨?_, rfl, rfl⟩
  simp [update_todo, hfound]

/-- C4 witness: a commit failure on a concrete stored row. -/
theorem update_todo_failure_handling_witness :
    update_todo 1 (some [("title", .s "x")]) (.commitFail "boom")
        ⟨[⟨1, .s "a", .s "b", .b false, 0, 0⟩], 2, 1⟩ =
      ((errBody ("Database commit failed: " ++ "boom"), 500),
       ⟨[⟨1, .s "a", .s "b", .b false, 0, 0⟩], 2, 1⟩) :=
  (update_todo_failure_handling ⟨[⟨1, .s "a", .s "b", .b false, 0, 0⟩], 2, 1⟩
    1 ⟨1, .s "a", .s "b", .b false, 0, 0⟩ (some [("title", .s "x")]) "boom"
    rfl).1

/-- C3: a create request with a truthy (non-empty) title inserts one new
record with the store-assigned id, returns 201 with the created record —
title from the payload, description from the payload defaulting to the
empty string, `completed:false` — and a get-by-id performed on the
resulting store returns 200 with the same record. -/
theorem create_todo_then_get (st : Store) (d : Jobj) (ttl : String)
    (hwf : st.wf) (htitle : jlookup d "title" = some (.s ttl)) (hne : ttl ≠ "") :
    create_todo (some d) none st =
      ((.obj [("success", .b true), ("data", (newTodo st d).to_dict),
              ("message", .s "Todo created successfully")], 201),
       { todos := st.todos ++ [newTodo st d], nextId := st.nextId + 1,
         clock := st.clock + 1 }) ∧
    (newTodo st d).id = st.nextId ∧
    (newTodo st d).title = .s ttl ∧
    (newTodo st d).description = (jlookup d "description").getD (.s "") ∧
    (newTodo st d).completed = .b false ∧
    (create_todo (some d) none st).2.todos.length = st.todos.length + 1 ∧
    get_todo (.ok (queryGet (create_todo (some d) none st).2 (newTodo st d).id)) =
      .ok (.obj [("success", .b true), ("data", (newTodo st d).to_dict)], 200) := by
  have hdne : d.isEmpty = false := by
    cases d with
    | nil => simp [jlookup, List.find?] at htitle
    | cons a l => rfl
  have hfalsy : pyFalsy (jlookup d "title") = false := by
    rw [htitle]
    have hE : ttl.isEmpty = false := by
      cases hE : ttl.isEmpty with
      | false => rfl
      | true => exact absurd ((String.isEmpty_iff ttl).mp hE) hne
    simp [pyFalsy, truthy, hE]
  have hnone : st.todos.find? (idMatch st.nextId) = none := by
    rw [List.find?_eq_none]
    intro x hx
    have hlt := (hwf.1 x hx).1
    simp only [idMatch, beq_iff_eq]
    omega
  have hcreate : create_todo (some d) none st =
      ((.obj [("success", .b true), ("data", (newTodo st d).to_dict),
              ("message", .s "Todo created successfully")], 201),
       { todos := st.todos ++ [newTodo st d], nextId := st.nextId + 1,
         clock := st.clock + 1 }) := by
    simp [create_todo, hdne, hfalsy]
  have hq : queryGet (create_todo (some d) none st).2 (newTodo st d).id =
      some (newTodo st d) := by
    rw [hcreate]
    simp [queryGet, hnone, newTodo, idMatch]
  refine ⟨hcreate, rfl, ?_, rfl, rfl, ?_, ?_⟩
  · simp [newTodo, htitle]
  · rw [hcreate]; simp
  · rw [hq]
    rfl

/-- C3 witness: creating `title:"A"` in the empty store, then reading it. -/
theorem create_todo_then_get_witness :
    get_todo (.ok (queryGet
        (create_todo (some [("title", .s "A")]) none ⟨[], 1, 0⟩).2
        (newTodo ⟨[], 1, 0⟩ [("title", .s "A")]).id)) =
      .ok (.obj [("success", .b true),
                 ("data", (newTodo ⟨[], 1, 0⟩ [("title", .s "A")]).to_dict)],
           200) :=
  (create_todo_then_get ⟨[], 1, 0⟩ [("title", .s "A")] "A" (by decide) rfl
    (by decide)).2.2.2.2.2.2

/-- C7: delete of a missing id yields 404 with no mutation (whatever fault
the store would produce); delete of an existing id physically removes the
row, so a get-by-id on the resulting store yields 404; a failure during
removal rolls back (store unchanged) and yields 500 with the failure
detail in the error string. -/
theorem delete_todo_spec (st : Store) (todo_id : Nat) (e : String) :
    (queryGet st todo_id = none →
      ∀ f, delete_todo todo_id f st = ((errBody "Todo not found", 404), st)) ∧
    (∀ t0, queryGet st todo_id = some t0 →
      delete_todo todo_id none st =
        ((.obj [("success", .b true),
                ("message", .s "Todo deleted successfully")], 200),
         { st with todos := st.todos.filter (fun t => !(idMatch todo_id t)) }) ∧
      queryGet (delete_todo todo_id none st).2 todo_id = none ∧
      get_todo (.ok (queryGet (delete_todo todo_id none st).2 todo_id)) =
        .ok (errBody "Todo not found", 404) ∧
      delete_todo todo_id (some e) st =
        ((errBody ("Failed to delete todo: " ++ e), 500), st)) := by
  constructor
  · intro hnone f
    simp [delete_todo, hnone]
  · intro t0 hsome
    have hgone : queryGet (delete_todo todo_id none st).2 todo_id = none := by
      simp only [delete_todo, hsome]
      exact find?_filter_ne st.todos todo_id
    refine ⟨by simp [delete_todo, hsome], hgone, ?_, by simp [delete_todo, hsome]⟩
    rw [hgone]
    rfl

/-- C7 witness: deleting a missing id, and deleting a present id then
reading it back. -/
theorem delete_todo_spec_witness :
    delete_todo 7 none ⟨[⟨1, .s "a", .s "", .b false, 0, 0⟩], 2, 1⟩ =
      ((errBody "Todo not found", 404),
       ⟨[⟨1, .s "a", .s "", .b false, 0, 0⟩], 2, 1⟩) ∧
    get_todo (.ok (queryGet
        (delete_todo 1 none ⟨[⟨1, .s "a", .s "", .b false, 0, 0⟩], 2, 1⟩).2 1)) =
      .ok (errBody "Todo not found", 404) :=
  ⟨(delete_todo_spec ⟨[⟨1, .s "a", .s "", .b false, 0, 0⟩], 2, 1⟩ 7 "x").1
     rfl none,
   ((delete_todo_spec ⟨[⟨1, .s "a", .s "", .b false, 0, 0⟩], 2, 1⟩ 1 "x").2
     ⟨1, .s "a", .s "", .b false, 0, 0⟩ rfl).2.2.1⟩

theorem append_isEmpty_false (a b : String) (ha : a.isEmpty = false) :
    (a ++ b).isEmpty = false := by
  cases hab : (a ++ b).isEmpty with
  | false => rfl
  | true =>
    exfalso
    have h := (String.isEmpty_iff (a ++ b)).mp hab
    have hlen := congrArg String.length h
    rw [String.length_append] at hlen
    simp at hlen
    have ha0 : a = "" := by
      apply String.ext
      exact List.length_eq_zero.mp hlen.1
    rw [ha0] at ha
    exact absurd ha (by decide)

theorem failureEnvelope_errBody (m : String) (hm : m.isEmpty = false) :
    failureEnvelope (errBody m) = true := by
  simp [failureEnvelope, errBody, jfield, jlookup, List.find?, hm]

/-- C6 counterexample: the health probe's unhealthy response is a failure
response (status 503) that carries an `error` string but no `success` field
at all, so it does not carry `success:false` as the claim states. -/
theorem health_unhealthy_missing_success :
    (health_check false).2 = 503 ∧
    jfield (health_check false).1 "error" =
      some (.s "Database connection failed") ∧
    jfield (health_check false).1 "success" = none ∧
    failureEnvelope (health_check false).1 = false :=
  ⟨rfl, rfl, rfl, rfl⟩

/-- C6 (amended): every failure response of the Todo endpoints — every
response of a handler other than its success response — carries
`success:false` and a nonempty `error` string, while the health probe's
unhealthy response carries an `error` string but no `success` field. -/
theorem failure_responses_carry_envelope (st : Store) (todo_id : Nat)
    (data : Option Jobj) (body : Option Jobj) (f : Option String)
    (fault : UpdateFault) (q : Except String (Option Todo)) :
    failureEnvelope (get_todos false st).1 = true ∧
    (∀ r, get_todo q = .ok r → r.2 = 200 ∨ failureEnvelope r.1 = true) ∧
    ((create_todo data f st).1.2 = 201 ∨
      failureEnvelope (create_todo data f st).1.1 = true) ∧
    ((update_todo todo_id body fault st).1.2 = 200 ∨
      failureEnvelope (update_todo todo_id body fault st).1.1 = true) ∧
    ((delete_todo todo_id f st).1.2 = 200 ∨
      failureEnvelope (delete_todo todo_id f st).1.1 = true) ∧
    jfield (health_check false).1 "error" =
      some (.s "Database connection failed") ∧
    jfield (health_check false).1 "success" = none := by
  refine ⟨?_, ?_, ?_, ?_, ?_, rfl, rfl⟩
  · exact failureEnvelope_errBody "Database error occurred" (by decide)
  · intro r h
    rcases q with e | found
    · exact absurd h (by simp [get_todo, Except.bind])
    · rcases found with _ | t
      · right
        have h2 : (Except.ok (errBody "Todo not found", 404) :
            Except String Resp) = .ok r := h
        rw [← Except.ok.inj h2]
        exact failureEnvelope_errBody _ (by decide)
      · left
        have h2 : (Except.ok (JVal.obj [("success", .b true),
            ("data", t.to_dict)], 200) : Except String Resp) = .ok r := h
        rw [← Except.ok.inj h2]
  · rcases data with _ | d
    · right
      exact failureEnvelope_errBody "Title is required" (by decide)
    · by_cases hc : (d.isEmpty || pyFalsy (jlookup d "title")) = true
      · right
        have hr : create_todo (some d) f st = ((errBody "Title is required", 400), st) := by
          simp [create_todo, hc]
        rw [hr]
        exact failureEnvelope_errBody _ (by decide)
      · rcases f with _ | e
        · left
          simp [create_todo, hc]
        · right
          have hr : create_todo (some d) (some e) st =
              ((errBody "Failed to create todo", 500), st) := by
            simp [create_todo, hc]
          rw [hr]
          exact failureEnvelope_errBody _ (by decide)
  · cases fault with
    | sqlFault e =>
      right
      exact failureEnvelope_errBody ("Database error: " ++ e)
        (append_isEmpty_false _ _ (by decide))
    | otherFault e =>
      right
      exact failureEnvelope_errBody ("Unexpected error: " ++ e)
        (append_isEmpty_false _ _ (by decide))
    | ok =>
      rcases hq : queryGet st todo_id with _ | t0
      · right
        have hr : update_todo todo_id body .ok st =
            ((errBody "Todo not found", 404), st) := by
          simp [update_todo, hq]
        rw [hr]
        exact failureEnvelope_errBody _ (by decide)
      · left
        simp [update_todo, hq]
    | commitFail e =>
      rcases hq : queryGet st todo_id with _ | t0
      · right
        have hr : update_todo todo_id body (.commitFail e) st =
            ((errBody "Todo not found", 404), st) := by
          simp [update_todo, hq]
        rw [hr]
        exact failureEnvelope_errBody _ (by decide)
      · right
        have hr : update_todo todo_id body (.commitFail e) st =
            ((errBody ("Database commit failed: " ++ e), 500), st) := by
          simp [update_todo, hq]
        rw [hr]
        exact failureEnvelope_errBody _ (append_isEmpty_false _ _ (by decide))
  · rcases hq : queryGet st todo_id with _ | t0
    · right
      have hr : delete_todo todo_id f st = ((errBody "Todo not found", 404), st) := by
        simp [delete_todo, hq]
      rw [hr]
      exact failureEnvelope_errBody _ (by decide)
    · rcases f with _ | e
      · left
        simp [delete_todo, hq]
      · right
        have hr : delete_todo todo_id (some e) st =
            ((errBody ("Failed to delete todo: " ++ e), 500), st) := by
          simp [delete_todo, hq]
        rw [hr]
        exact failureEnvelope_errBody _ (append_isEmpty_false _ _ (by decide))

/-- C6 (amended) witness: the not-found response of the get-by-id handler
carries the failure envelope. -/
theorem failure_responses_carry_envelope_witness :
    (404 : Nat) = 200 ∨ failureEnvelope (errBody "Todo not found") = true :=
  (failure_responses_carry_envelope ⟨[], 1, 0⟩ 1 none none none .ok
    (.ok none)).2.1 (errBody "Todo not found", 404) rfl

end TodoApp
